import Mathlib

/-!
Shallow embedding of the wearebeam/no-sleep repository.

The repository contains three variants of the same small library:
  - src/lib/main.ts          : the latest TypeScript variant (classes NoSleepSSR,
                               NoSleepNative, NoSleepVideo and a default export that
                               picks one of them by capability detection);
  - src/unnamed/part_000     : an older plain-JavaScript variant (single NoSleep
                               class with both branches, promise chains that
                               re-throw in .catch) plus the README;
  - src/unnamed/part_001     : an intermediate TypeScript variant (NoSleepNative,
                               NoSleepVideo, nativeWakeLock detector).

Strategy state is embedded as plain records.  Asynchronous platform operations
(navigator.wakeLock.request, HTMLMediaElement.play) are modelled by passing the
settled platform result (an Except value) as an argument; the second component
of enable is the settled outcome of the promise the caller receives (Except.ok
when the promise resolves, Except.error when it rejects).  DOM element state
relevant to the claims (attachment to the body, source children, registered
listeners, loop attribute, playback rate, current time, duration) is carried in
the video-strategy record.  Math.random() is modelled by a rational argument
rand with 0 ≤ rand < 1.
-/

/-- The three strategy classes the default export of src/lib/main.ts can
    select: NoSleepSSR, NoSleepNative, NoSleepVideo. -/
inductive Strategy
  | ssr
  | native
  | video
deriving DecidableEq

/-- Environment facts inspected by the capability detector in
    src/lib/main.ts lines 236-250: whether a navigator global is defined,
    whether the string wakeLock occurs in navigator, and whether the
    non-standard navigator.standalone flag is truthy. -/
structure Env where
  navigatorDefined : Bool
  wakeLockInNavigator : Bool
  standalone : Bool
deriving DecidableEq

/-- Embeds the default export of src/lib/main.ts lines 236-250:
    typeof navigator undefined gives NoSleepSSR; otherwise wakeLock in
    navigator and not navigator.standalone gives NoSleepNative; otherwise
    NoSleepVideo. -/
def defaultExport (e : Env) : Strategy :=
  if e.navigatorDefined = false then Strategy.ssr
  else if e.wakeLockInNavigator = true ∧ e.standalone = false then Strategy.native
  else Strategy.video

/-- Embeds the isEnabled field of NoSleepSSR, src/lib/main.ts line 11. -/
def NoSleepSSR.isEnabled : Bool := false

/-- Embeds NoSleepSSR.enable, src/lib/main.ts lines 12-14: it throws
    synchronously; the thrown message is the error payload. -/
def NoSleepSSR.enable : Except String Unit :=
  Except.error ("NoSleep using SSR/no-op mode; do not call enable.")

/-- Embeds NoSleepSSR.disable, src/lib/main.ts lines 15-17: it throws
    synchronously; the thrown message is the error payload. -/
def NoSleepSSR.disable : Except String Unit :=
  Except.error ("NoSleep using SSR/no-op mode; do not call disable.")

/-- State of a NoSleepNative instance, src/lib/main.ts lines 21-23: the
    isEnabled flag and the optional WakeLockSentinel reference (sentinels are
    modelled as opaque numeric ids). -/
structure NativeState where
  isEnabled : Bool
  wakeLock : Option Nat
deriving DecidableEq

/-- Field initializers of NoSleepNative, src/lib/main.ts lines 22-23:
    isEnabled false, wakeLock undefined. -/
def NoSleepNative.construct : NativeState :=
  { isEnabled := false, wakeLock := none }

/-- Embeds NoSleepNative.enable, src/lib/main.ts lines 35-50.  The argument
    req is the settled result of navigator.wakeLock.request, a sentinel id on
    success or a rejection message.  On success the sentinel is stored and
    isEnabled is set true.  On failure the catch block sets isEnabled false and
    only logs the error; the async method then returns normally, so the promise
    handed to the caller resolves in both cases - hence the second component is
    Except.ok in both branches.  (The release listener registered on the
    sentinel at lines 40-45 only logs and is not modelled.) -/
def NoSleepNative.enable (s : NativeState) (req : Except String Nat) :
    NativeState × Except String Unit :=
  match req with
  | Except.ok h => ({ isEnabled := true, wakeLock := some h }, Except.ok ())
  | Except.error _ => ({ s with isEnabled := false }, Except.ok ())

/-- Embeds NoSleepNative.disable, src/lib/main.ts lines 52-56: release the
    sentinel if held (a platform call with no effect on this record), clear the
    reference, set isEnabled false. -/
def NoSleepNative.disable (s : NativeState) : NativeState :=
  { s with wakeLock := none, isEnabled := false }

/-- Page visibility as read from document.visibilityState. -/
inductive Visibility
  | visible
  | hidden
deriving DecidableEq

/-- Embeds NoSleepNative.handleVisibilityChange, src/lib/main.ts lines 31-33:
    the short-circuit line calls this.enable() exactly when a sentinel
    reference is retained and the page is visible.  The argument req is the
    platform result the re-acquisition request would settle with; the second
    component counts the enable() invocations the handler issues for this one
    event (0 or 1). -/
def NoSleepNative.handleVisibilityChange (s : NativeState) (vis : Visibility)
    (req : Except String Nat) : NativeState × Nat :=
  if s.wakeLock.isSome = true ∧ vis = Visibility.visible then
    ((NoSleepNative.enable s req).1, 1)
  else (s, 0)

/-- The two media source formats of src/lib/media. -/
inductive SourceType
  | webm
  | mp4
deriving DecidableEq

/-- Embeds the type attribute assigned in NoSleepVideo._addSourceToVideo,
    src/lib/main.ts line 181. -/
def sourceTypeAttr : SourceType → String
  | SourceType.webm => "video/webm"
  | SourceType.mp4 => "video/mp4"

/-- The listeners that NoSleepVideo registers on its video element: the four
    named handlers of src/lib/main.ts lines 113-126 and the anonymous
    timeupdate listener of lines 133-155. -/
inductive ListenerType
  | loadedmetadata
  | error
  | pause
  | ended
  | timeupdate
deriving DecidableEq

/-- State of the video element owned by a NoSleepVideo instance together with
    the isEnabled flag of the instance, src/lib/main.ts lines 79-127: whether
    the element is attached to the document body, its source children in
    order, the registered listeners in registration order, the loop attribute,
    the playback rate, the current playback position and the reported
    duration. -/
structure VideoState where
  isEnabled : Bool
  paused : Bool
  attached : Bool
  sources : List SourceType
  listeners : List ListenerType
  loopAttr : Bool
  playbackRate : ℚ
  currentTime : ℚ
  duration : ℚ
deriving DecidableEq

/-- Embeds the NoSleepVideo constructor, src/lib/main.ts lines 84-127: a webm
    source is added when videoSourceType is webm or absent (line 97), an mp4
    source when it is mp4 or absent (line 101), in that textual order; the
    element is appended to the body (line 111); the loadedmetadata, error,
    pause and ended listeners are registered (lines 113-126).  A fresh video
    element starts paused with no loop attribute, rate 1, position 0; the
    duration is unknown until metadata loads and starts at 0 here. -/
def NoSleepVideo.construct (videoSourceType : Option SourceType) : VideoState :=
  { isEnabled := false,
    paused := true,
    attached := true,
    sources :=
      (if videoSourceType = some SourceType.webm ∨ videoSourceType = none
        then [SourceType.webm] else []) ++
      (if videoSourceType = some SourceType.mp4 ∨ videoSourceType = none
        then [SourceType.mp4] else []),
    listeners := [ListenerType.loadedmetadata, ListenerType.error,
      ListenerType.pause, ListenerType.ended],
    loopAttr := false,
    playbackRate := 1,
    currentTime := 0,
    duration := 0 }

/-- Embeds NoSleepVideo.handleLoadedMetadata, src/lib/main.ts lines 129-156:
    unconditionally set playbackRate to 0.1 and register the anonymous
    timeupdate listener.  There is no branch on duration and the loop
    attribute is never set in this variant. -/
def NoSleepVideo.handleLoadedMetadata (s : VideoState) : VideoState :=
  { s with playbackRate := 1/10,
           listeners := s.listeners ++ [ListenerType.timeupdate] }

/-- Embeds the body of the anonymous timeupdate listener, src/lib/main.ts
    lines 133-138: when currentTime exceeds 0.5 it is reset to
    Math.random() * 0.5, otherwise nothing changes.  The argument rand models
    the Math.random() draw, a rational with 0 ≤ rand < 1.  The remaining lines
    139-154 only invoke the logging callback. -/
def NoSleepVideo.timeupdate (s : VideoState) (rand : ℚ) : VideoState :=
  if s.currentTime > 1/2 then { s with currentTime := rand * (1/2) } else s

/-- Embeds NoSleepVideo.enable, src/lib/main.ts lines 185-195.  The argument
    play is the settled result of noSleepVideo.play().  On success playback is
    running (paused false, a platform effect of play) and isEnabled is set
    true; the promise resolves with the play result.  On failure the catch
    block sets isEnabled false and only logs; the async method returns
    normally, so the promise the caller receives resolves here as well. -/
def NoSleepVideo.enable (s : VideoState) (play : Except String Unit) :
    VideoState × Except String Unit :=
  match play with
  | Except.ok r => ({ s with paused := false, isEnabled := true }, Except.ok r)
  | Except.error _ => ({ s with isEnabled := false }, Except.ok ())

/-- Embeds NoSleepVideo.disable, src/lib/main.ts lines 197-200: pause the
    element and set isEnabled false; nothing else is touched. -/
def NoSleepVideo.disable (s : VideoState) : VideoState :=
  { s with paused := true, isEnabled := false }

/-- Embeds NoSleepVideo.dispose, src/lib/main.ts lines 202-214: remove the
    loadedmetadata, error, pause and ended listeners (the anonymous timeupdate
    listener of lines 133-155 is never removed, no reference to it is kept),
    then document.body.removeChild(noSleepVideo).  Per the DOM standard,
    removeChild throws NotFoundError when the argument is not a child of the
    body, which is the case once the element has already been removed. -/
def NoSleepVideo.dispose (s : VideoState) : Except String VideoState :=
  let s1 : VideoState :=
    { s with listeners := s.listeners.filter (fun l =>
        !(l == ListenerType.loadedmetadata) && !(l == ListenerType.error) &&
        !(l == ListenerType.pause) && !(l == ListenerType.ended)) }
  if s1.attached = true then Except.ok { s1 with attached := false }
  else Except.error ("NotFoundError")

/-- Embeds the NoSleepVideo constructor of src/unnamed/part_001 lines 48-80
    (likewise the video branch of the constructor in src/unnamed/part_000
    lines 22-52): both sources are always added, webm then mp4, the element is
    appended to the body, and a loadedmetadata listener is registered.  No
    error, pause or ended handlers exist in those variants. -/
def NoSleepVideoOld.construct : VideoState :=
  { isEnabled := false,
    paused := true,
    attached := true,
    sources := [SourceType.webm, SourceType.mp4],
    listeners := [ListenerType.loadedmetadata],
    loopAttr := false,
    playbackRate := 1,
    currentTime := 0,
    duration := 0 }

/-- Embeds the loadedmetadata handler of src/unnamed/part_001 lines 67-79 and
    src/unnamed/part_000 lines 40-52: when duration ≤ 1 the loop attribute is
    set; otherwise a timeupdate seek-reset listener is registered. -/
def NoSleepVideoOld.handleLoadedMetadata (s : VideoState) : VideoState :=
  if s.duration ≤ 1 then { s with loopAttr := true }
  else { s with listeners := s.listeners ++ [ListenerType.timeupdate] }

/-- Embeds NoSleep.enable of src/unnamed/part_000 lines 67-99: both the
    native branch (lines 68-86) and the video branch (lines 87-98) end in a
    .catch that sets enabled false and re-throws, so on platform failure the
    promise the caller receives rejects with the same error; on success
    enabled is set true.  The boolean is the enabled flag afterwards. -/
def NoSleepJS.enable (req : Except String Unit) : Bool × Except String Unit :=
  match req with
  | Except.ok r => (true, Except.ok r)
  | Except.error e => (false, Except.error e)

/-- Claim C3: the capability detector selects exactly one of the three
    strategies: no-op when no navigator global exists; native when the
    wake-lock capability is present and the environment is not standalone;
    video-fallback otherwise - in particular standalone mode forces
    video-fallback even when the native capability flag is present. -/
theorem claim_C3 (e : Env) :
    (defaultExport e = Strategy.ssr ∨ defaultExport e = Strategy.native ∨
      defaultExport e = Strategy.video) ∧
    (defaultExport e = Strategy.ssr ↔ e.navigatorDefined = false) ∧
    (defaultExport e = Strategy.native ↔
      e.navigatorDefined = true ∧ e.wakeLockInNavigator = true ∧
        e.standalone = false) ∧
    (e.navigatorDefined = true ∧ e.standalone = true →
      defaultExport e = Strategy.video) := by
  obtain ⟨n, w, st⟩ := e
  cases n <;> cases w <;> cases st <;> decide

/-- Witness for claim C3 at the standalone-with-capability environment: the
    detector picks the video-fallback strategy. -/
theorem claim_C3_witness :
    Env.navigatorDefined ⟨true, true, true⟩ = true ∧
    Env.standalone ⟨true, true, true⟩ = true ∧
    defaultExport ⟨true, true, true⟩ = Strategy.video :=
  ⟨rfl, rfl, (claim_C3 ⟨true, true, true⟩).2.2.2 ⟨rfl, rfl⟩⟩

/-- Claim C8: in the no-op/SSR strategy, selected when no browser environment
    exists, both enable() and disable() fail immediately with a descriptive
    error rather than silently doing nothing, and isEnabled stays false. -/
theorem claim_C8 :
    defaultExport ⟨false, false, false⟩ = Strategy.ssr ∧
    NoSleepSSR.enable =
      Except.error ("NoSleep using SSR/no-op mode; do not call enable.") ∧
    NoSleepSSR.disable =
      Except.error ("NoSleep using SSR/no-op mode; do not call disable.") ∧
    NoSleepSSR.isEnabled = false :=
  ⟨rfl, rfl, rfl, rfl⟩

/-- Counterexample to claim C1 as stated: in src/lib/main.ts a failed
    enable() leaves isEnabled false, but the rejection is caught and only
    logged, so the promise the caller receives resolves - the failure is not
    observable as a rejected asynchronous outcome.  Shown for both the native
    strategy and the video strategy at a concrete NotAllowedError rejection. -/
theorem claim_C1_counterexample :
    (NoSleepNative.enable NoSleepNative.construct
      (Except.error ("NotAllowedError"))).1.isEnabled = false ∧
    (NoSleepNative.enable NoSleepNative.construct
      (Except.error ("NotAllowedError"))).2 = Except.ok () ∧
    (NoSleepVideo.enable (NoSleepVideo.construct none)
      (Except.error ("NotAllowedError"))).1.isEnabled = false ∧
    (NoSleepVideo.enable (NoSleepVideo.construct none)
      (Except.error ("NotAllowedError"))).2 = Except.ok () :=
  ⟨rfl, rfl, rfl, rfl⟩

/-- Claim C1 as amended: for the native and video strategies of
    src/lib/main.ts, a successful enable() sets isEnabled true, and a failed
    enable() sets isEnabled false but the error is caught and logged, so the
    asynchronous outcome the caller observes resolves rather than rejects.
    The older variant in src/unnamed/part_000 re-throws in .catch, so there a
    failed enable() does reject with the platform error. -/
theorem claim_C1_amended (s : NativeState) (v : VideoState) (msg : String)
    (h : Nat) :
    (NoSleepNative.enable s (Except.ok h)).1.isEnabled = true ∧
    (NoSleepNative.enable s (Except.error msg)).1.isEnabled = false ∧
    (NoSleepNative.enable s (Except.error msg)).2 = Except.ok () ∧
    (NoSleepVideo.enable v (Except.ok ())).1.isEnabled = true ∧
    (NoSleepVideo.enable v (Except.error msg)).1.isEnabled = false ∧
    (NoSleepVideo.enable v (Except.error msg)).2 = Except.ok () ∧
    NoSleepJS.enable (Except.error msg) = (false, Except.error msg) :=
  ⟨rfl, rfl, rfl, rfl, rfl, rfl, rfl⟩

/-- Counterexample to claim C2 as stated: disable() of the no-op/SSR strategy
    throws its placeholder error, so it is not error-free for every
    strategy. -/
theorem claim_C2_counterexample :
    NoSleepSSR.disable =
      Except.error ("NoSleep using SSR/no-op mode; do not call disable.") :=
  rfl

/-- Claim C2 as amended: for the native and video-fallback strategies,
    disable() is idempotent and error-free - any positive number of calls
    without an intervening enable() leaves isEnabled false; the SSR strategy
    instead throws from disable() (its isEnabled constant stays false). -/
theorem claim_C2_amended (n : Nat) (s : NativeState) (v : VideoState) :
    (NoSleepNative.disable^[n + 1] s).isEnabled = false ∧
    NoSleepNative.disable (NoSleepNative.disable s) = NoSleepNative.disable s ∧
    (NoSleepVideo.disable^[n + 1] v).isEnabled = false ∧
    NoSleepVideo.disable (NoSleepVideo.disable v) = NoSleepVideo.disable v := by
  refine ⟨?_, rfl, ?_, rfl⟩
  · rw [Function.iterate_succ_apply']
    rfl
  · rw [Function.iterate_succ_apply']
    rfl

/-- Claim C6: one visibility/fullscreen event issues exactly one re-acquisition
    attempt precisely when a sentinel reference is retained and the page is
    visible; after disable() cleared the reference, no attempt is issued. -/
theorem claim_C6 (s : NativeState) (vis : Visibility)
    (req : Except String Nat) :
    ((NoSleepNative.handleVisibilityChange s vis req).2 = 1 ↔
      s.wakeLock.isSome = true ∧ vis = Visibility.visible) ∧
    (NoSleepNative.handleVisibilityChange (NoSleepNative.disable s) vis
      req).2 = 0 ∧
    (NoSleepNative.handleVisibilityChange s vis req).2 ≤ 1 := by
  obtain ⟨en, wl⟩ := s
  cases wl <;> cases vis <;>
    simp [NoSleepNative.handleVisibilityChange, NoSleepNative.disable]

/-- Witness for claim C6 at a retained sentinel and a visible page: exactly
    one re-acquisition attempt is issued. -/
theorem claim_C6_witness :
    (((NoSleepNative.handleVisibilityChange ⟨true, some 0⟩ Visibility.visible
        (Except.ok 0)).2 = 1 ↔
      (Option.some 0).isSome = true ∧
        Visibility.visible = Visibility.visible) ∧
    (NoSleepNative.handleVisibilityChange
      (NoSleepNative.disable ⟨true, some 0⟩) Visibility.visible
        (Except.ok 0)).2 = 0 ∧
    (NoSleepNative.handleVisibilityChange ⟨true, some 0⟩ Visibility.visible
      (Except.ok 0)).2 ≤ 1) ∧
    (NoSleepNative.handleVisibilityChange ⟨true, some 0⟩ Visibility.visible
      (Except.ok 0)).2 = 1 :=
  ⟨claim_C6 ⟨true, some 0⟩ Visibility.visible (Except.ok 0),
   (claim_C6 ⟨true, some 0⟩ Visibility.visible (Except.ok 0)).1.2
     ⟨rfl, rfl⟩⟩

/-- Concrete video state for the C4 counterexample: constructed with default
    sources, metadata reporting duration 0.9 (a clip with duration ≤ 1). -/
def C4state : VideoState :=
  { NoSleepVideo.construct none with duration := 9/10 }

/-- Counterexample to claim C4 as stated: in src/lib/main.ts the
    loadedmetadata handler has no duration branch, so for a clip of duration
    0.9 ≤ 1 the loop attribute is never set, the seek-reset timeupdate
    listener is registered anyway, and a timeupdate at position 0.7 performs a
    manual seek-reset (here to 0.25 * 0.5 = 0.125). -/
theorem claim_C4_counterexample :
    C4state.duration ≤ 1 ∧
    (NoSleepVideo.handleLoadedMetadata C4state).loopAttr = false ∧
    ListenerType.timeupdate ∈
      (NoSleepVideo.handleLoadedMetadata C4state).listeners ∧
    (NoSleepVideo.timeupdate { C4state with currentTime := 7/10 }
      (1/4)).currentTime = 1/8 := by
  refine ⟨by norm_num [C4state, NoSleepVideo.construct], rfl, ?_, ?_⟩
  · simp [NoSleepVideo.handleLoadedMetadata]
  · norm_num [NoSleepVideo.timeupdate, C4state, NoSleepVideo.construct]

/-- Claim C4 as amended: in the earlier variants (src/unnamed/part_000 and
    src/unnamed/part_001), once metadata is loaded a clip with duration ≤ 1
    gets the loop attribute and no timeupdate listener, hence never a manual
    seek-reset; in the latest variant (src/lib/main.ts) the loadedmetadata
    handler ignores duration, never sets loop, and always registers the
    seek-reset timeupdate listener. -/
theorem claim_C4_amended (d : ℚ) (hd : d ≤ 1) :
    (NoSleepVideoOld.handleLoadedMetadata
      { NoSleepVideoOld.construct with duration := d }).loopAttr = true ∧
    ListenerType.timeupdate ∉
      (NoSleepVideoOld.handleLoadedMetadata
        { NoSleepVideoOld.construct with duration := d }).listeners ∧
    (NoSleepVideo.handleLoadedMetadata
      { NoSleepVideo.construct none with duration := d }).loopAttr = false ∧
    ListenerType.timeupdate ∈
      (NoSleepVideo.handleLoadedMetadata
        { NoSleepVideo.construct none with duration := d }).listeners := by
  have hmeta : NoSleepVideoOld.handleLoadedMetadata
      { NoSleepVideoOld.construct with duration := d } =
      { NoSleepVideoOld.construct with duration := d, loopAttr := true } := by
    unfold NoSleepVideoOld.handleLoadedMetadata
    rw [if_pos hd]
  refine ⟨by rw [hmeta], by rw [hmeta]; simp [NoSleepVideoOld.construct], rfl, ?_⟩
  simp [NoSleepVideo.handleLoadedMetadata]

/-- Witness for claim C4 as amended at duration 0.5. -/
theorem claim_C4_witness :
    (1/2 : ℚ) ≤ 1 ∧
    ((NoSleepVideoOld.handleLoadedMetadata
      { NoSleepVideoOld.construct with duration := 1/2 }).loopAttr = true ∧
    ListenerType.timeupdate ∉
      (NoSleepVideoOld.handleLoadedMetadata
        { NoSleepVideoOld.construct with duration := 1/2 }).listeners ∧
    (NoSleepVideo.handleLoadedMetadata
      { NoSleepVideo.construct none with duration := 1/2 }).loopAttr = false ∧
    ListenerType.timeupdate ∈
      (NoSleepVideo.handleLoadedMetadata
        { NoSleepVideo.construct none with duration := 1/2 }).listeners) :=
  ⟨by norm_num, claim_C4_amended (1/2) (by norm_num)⟩

/-- Claim C5: in the latest video-fallback variant, after metadata loads the
    playback rate is 0.1 and the timeupdate listener is registered; on a
    timeupdate with position above 0.5 the position is reset to a value in
    [0, 0.5); positions at most 0.5 are left unchanged. -/
theorem claim_C5 (s : VideoState) (rand : ℚ) (h0 : 0 ≤ rand)
    (h1 : rand < 1) :
    (NoSleepVideo.handleLoadedMetadata s).playbackRate = 1/10 ∧
    ListenerType.timeupdate ∈
      (NoSleepVideo.handleLoadedMetadata s).listeners ∧
    (1/2 < s.currentTime →
      0 ≤ (NoSleepVideo.timeupdate s rand).currentTime ∧
      (NoSleepVideo.timeupdate s rand).currentTime < 1/2) ∧
    (s.currentTime ≤ 1/2 → NoSleepVideo.timeupdate s rand = s) := by
  refine ⟨rfl, by simp [NoSleepVideo.handleLoadedMetadata], ?_, ?_⟩
  · intro ht
    have hct : (NoSleepVideo.timeupdate s rand).currentTime = rand * (1/2) := by
      unfold NoSleepVideo.timeupdate
      rw [if_pos ht]
    rw [hct]
    constructor
    · nlinarith
    · nlinarith
  · intro ht
    unfold NoSleepVideo.timeupdate
    rw [if_neg (not_lt.mpr ht)]

/-- Concrete video state for the C5 witness: playback position 0.75. -/
def C5state : VideoState :=
  { NoSleepVideo.construct none with currentTime := 3/4 }

/-- Witness for claim C5 at a position of 0.75 and a Math.random() draw of
    0.5. -/
theorem claim_C5_witness :
    (0 : ℚ) ≤ 1/2 ∧ (1/2 : ℚ) < 1 ∧
    ((NoSleepVideo.handleLoadedMetadata C5state).playbackRate = 1/10 ∧
    ListenerType.timeupdate ∈
      (NoSleepVideo.handleLoadedMetadata C5state).listeners ∧
    (1/2 < C5state.currentTime →
      0 ≤ (NoSleepVideo.timeupdate C5state (1/2)).currentTime ∧
      (NoSleepVideo.timeupdate C5state (1/2)).currentTime < 1/2) ∧
    (C5state.currentTime ≤ 1/2 →
      NoSleepVideo.timeupdate C5state (1/2) = C5state)) :=
  ⟨by norm_num, by norm_num, claim_C5 C5state (1/2) (by norm_num) (by norm_num)⟩

/-- Counterexample to claim C7 as stated: after metadata has loaded, dispose()
    of src/lib/main.ts removes only the four named listeners, so the anonymous
    timeupdate listener survives, and a second consecutive dispose() throws
    NotFoundError because the element is no longer a child of the body. -/
theorem claim_C7_counterexample :
    (NoSleepVideo.dispose (NoSleepVideo.handleLoadedMetadata
      (NoSleepVideo.construct none))).map VideoState.listeners =
      Except.ok [ListenerType.timeupdate] ∧
    ((NoSleepVideo.dispose (NoSleepVideo.handleLoadedMetadata
      (NoSleepVideo.construct none))).bind NoSleepVideo.dispose) =
      Except.error ("NotFoundError") :=
  ⟨rfl, rfl⟩

/-- Claim C7 as amended: for any constructor option, dispose() after metadata
    load removes the four listeners registered at construction and removes the
    element from the document, but the anonymous timeupdate listener is not
    removed, and a second consecutive dispose() throws NotFoundError. -/
theorem claim_C7_amended (o : Option SourceType) :
    (NoSleepVideo.dispose (NoSleepVideo.handleLoadedMetadata
      (NoSleepVideo.construct o))).map VideoState.listeners =
      Except.ok [ListenerType.timeupdate] ∧
    (NoSleepVideo.dispose (NoSleepVideo.handleLoadedMetadata
      (NoSleepVideo.construct o))).map VideoState.attached =
      Except.ok false ∧
    ((NoSleepVideo.dispose (NoSleepVideo.handleLoadedMetadata
      (NoSleepVideo.construct o))).bind NoSleepVideo.dispose) =
      Except.error ("NotFoundError") :=
  ⟨rfl, rfl, rfl⟩

/-- Claim C9: with no videoSourceType option the constructed element has
    exactly the two source children webm then mp4 in that order; with mp4 it
    has exactly one source child of type video/mp4; with webm exactly one of
    type video/webm. -/
theorem claim_C9 :
    (NoSleepVideo.construct none).sources =
      [SourceType.webm, SourceType.mp4] ∧
    (NoSleepVideo.construct (some SourceType.mp4)).sources =
      [SourceType.mp4] ∧
    (NoSleepVideo.construct (some SourceType.webm)).sources =
      [SourceType.webm] ∧
    (NoSleepVideo.construct (some SourceType.mp4)).sources.map sourceTypeAttr =
      [("video/mp4")] ∧
    (NoSleepVideo.construct (some SourceType.webm)).sources.map sourceTypeAttr =
      [("video/webm")] ∧
    (NoSleepVideo.construct none).sources.map sourceTypeAttr =
      [("video/webm"), ("video/mp4")] := by
  refine ⟨rfl, rfl, rfl, rfl, rfl, rfl⟩

/-- Claim C10: disable() of the video-fallback strategy only pauses playback
    and clears isEnabled; attachment to the document, the source children, the
    registered listeners, the loop attribute, the playback rate and the
    duration are unchanged, so a following enable() operates on the same
    element (same sources, listeners, attachment); and dispose() never leaves
    the element attached - it is the only operation that detaches it. -/
theorem claim_C10 (v : VideoState) (play : Except String Unit) :
    (NoSleepVideo.disable v).isEnabled = false ∧
    (NoSleepVideo.disable v).paused = true ∧
    (NoSleepVideo.disable v).attached = v.attached ∧
    (NoSleepVideo.disable v).sources = v.sources ∧
    (NoSleepVideo.disable v).listeners = v.listeners ∧
    (NoSleepVideo.disable v).loopAttr = v.loopAttr ∧
    (NoSleepVideo.disable v).playbackRate = v.playbackRate ∧
    (NoSleepVideo.disable v).duration = v.duration ∧
    ((NoSleepVideo.enable (NoSleepVideo.disable v) play).1).sources =
      v.sources ∧
    ((NoSleepVideo.enable (NoSleepVideo.disable v) play).1).listeners =
      v.listeners ∧
    ((NoSleepVideo.enable (NoSleepVideo.disable v) play).1).attached =
      v.attached ∧
    (NoSleepVideo.dispose v).map VideoState.attached ≠ Except.ok true := by
  refine ⟨rfl, rfl, rfl, rfl, rfl, rfl, rfl, rfl, ?_, ?_, ?_, ?_⟩
  · cases play <;> rfl
  · cases play <;> rfl
  · cases play <;> rfl
  · by_cases hA : v.attached = true <;>
      simp [NoSleepVideo.dispose, hA, Except.map]

/-- Witness for claim C10 at a freshly constructed element and a resolved
    play() call. -/
theorem claim_C10_witness :
    (NoSleepVideo.disable (NoSleepVideo.construct none)).isEnabled = false ∧
    (NoSleepVideo.disable (NoSleepVideo.construct none)).paused = true ∧
    (NoSleepVideo.disable (NoSleepVideo.construct none)).attached =
      (NoSleepVideo.construct none).attached ∧
    (NoSleepVideo.disable (NoSleepVideo.construct none)).sources =
      (NoSleepVideo.construct none).sources ∧
    (NoSleepVideo.disable (NoSleepVideo.construct none)).listeners =
      (NoSleepVideo.construct none).listeners ∧
    (NoSleepVideo.disable (NoSleepVideo.construct none)).loopAttr =
      (NoSleepVideo.construct none).loopAttr ∧
    (NoSleepVideo.disable (NoSleepVideo.construct none)).playbackRate =
      (NoSleepVideo.construct none).playbackRate ∧
    (NoSleepVideo.disable (NoSleepVideo.construct none)).duration =
      (NoSleepVideo.construct none).duration ∧
    ((NoSleepVideo.enable (NoSleepVideo.disable (NoSleepVideo.construct none))
      (Except.ok ())).1).sources = (NoSleepVideo.construct none).sources ∧
    ((NoSleepVideo.enable (NoSleepVideo.disable (NoSleepVideo.construct none))
      (Except.ok ())).1).listeners = (NoSleepVideo.construct none).listeners ∧
    ((NoSleepVideo.enable (NoSleepVideo.disable (NoSleepVideo.construct none))
      (Except.ok ())).1).attached = (NoSleepVideo.construct none).attached ∧
    (NoSleepVideo.dispose (NoSleepVideo.construct none)).map
      VideoState.attached ≠ Except.ok true :=
  claim_C10 (NoSleepVideo.construct none) (Except.ok ())
